import Mathlib

/-!
Shallow embedding of `build_playwright_mcp_demo.py`, a script that builds a
slide deck (one title slide plus seventeen fixed content slides) from a
template background image and a handful of string parameters, using a
presentation-document library (python-pptx).

Geometry is modelled in EMU (914400 per inch), as python-pptx's `Inches`
does; the default blank presentation canvas is 10 in by 7.5 in.
-/

namespace Deck

/-- One EMU value per inch, as in python-pptx `Inches`. -/
def emuPerInch : Nat := 914400

/-- `Inches(0.7)` = 640080 EMU (offsets used for every text box's left). -/
def in07 : Nat := 640080

/-- `Inches(0.6)` = 548640 EMU (title box top). -/
def in06 : Nat := 548640

/-- `Inches(10)` = 9144000 EMU (text box width; also the slide width). -/
def in10 : Nat := 9144000

/-- `Inches(1.2)` = 1097280 EMU (title box height). -/
def in12 : Nat := 1097280

/-- `Inches(1.6)` = 1463040 EMU (subtitle box top). -/
def in16 : Nat := 1463040

/-- `Inches(1.5)` = 1371600 EMU (subtitle box height). -/
def in15 : Nat := 1371600

/-- `Inches(2.2)` = 2011680 EMU (bullet box top). -/
def in22 : Nat := 2011680

/-- `Inches(5.1)` = 4663440 EMU (bullet box height). -/
def in51 : Nat := 4663440

/-- Default slide width of a blank python-pptx `Presentation()`: 10 in. -/
def defaultSlideWidth : Nat := 9144000

/-- Default slide height of a blank python-pptx `Presentation()`: 7.5 in. -/
def defaultSlideHeight : Nat := 6858000

/-- A paragraph of a text frame: its text, outline level, and the font
attributes the script sets (`size` in points when set, bold flag, RGB color
when set). -/
structure Para where
  text : String
  level : Nat
  size : Option Nat
  bold : Bool
  color : Option (Nat × Nat × Nat)
  deriving Repr, DecidableEq

/-- The single empty paragraph left behind by `text_frame.clear()` (and the
one a fresh notes text frame holds). -/
def defaultPara : Para := { text := "", level := 0, size := none, bold := false, color := none }

/-- A shape on a slide: a picture (`add_picture(path, left, top, width,
height)`) or a text box (`add_textbox(left, top, width, height)`) holding its
paragraphs. -/
inductive Shape where
  | pic (path : String) (left top width height : Nat)
  | textbox (left top width height : Nat) (paras : List Para)
  deriving Repr, DecidableEq

/-- A slide: its shapes in insertion order, and its notes text frame's
paragraphs when a notes slide exists (`slide.notes_slide` is created on
first access, so `none` means it was never touched). -/
structure Slide where
  shapes : List Shape
  notes : Option (List Para)
  deriving Repr, DecidableEq

/-- A blank slide as added by `prs.slides.add_slide(prs.slide_layouts[6])`. -/
def blankSlide : Slide := { shapes := [], notes := none }

/-- The presentation document: canvas size and the slides in order. -/
structure Prs where
  slideWidth : Nat
  slideHeight : Nat
  slides : List Slide
  deriving Repr, DecidableEq

/-- A fresh `Presentation()` with the default 4:3 canvas and no slides. -/
def newPrs : Prs := { slideWidth := defaultSlideWidth, slideHeight := defaultSlideHeight, slides := [] }

/-- `add_bg_image(slide, image_path, prs)`: adds a picture at the origin
sized to the full slide canvas. -/
def add_bg_image (slide : Slide) (image_path : String) (prs : Prs) : Slide :=
  { slide with shapes := slide.shapes ++ [Shape.pic image_path 0 0 prs.slideWidth prs.slideHeight] }

/-- `add_title(slide, title_text)`: a text box at (0.7in, 0.6in, 10in,
1.2in) whose single paragraph holds the title in 44 pt bold black. -/
def add_title (slide : Slide) (title_text : String) : Slide :=
  { slide with shapes := slide.shapes ++
      [Shape.textbox in07 in06 in10 in12
        [{ text := title_text, level := 0, size := some 44, bold := true, color := some (0, 0, 0) }]] }

/-- `add_subtitle(slide, subtitle_text)`: a text box at (0.7in, 1.6in, 10in,
1.5in) whose single paragraph holds the subtitle in 20 pt black. -/
def add_subtitle (slide : Slide) (subtitle_text : String) : Slide :=
  { slide with shapes := slide.shapes ++
      [Shape.textbox in07 in16 in10 in15
        [{ text := subtitle_text, level := 0, size := some 20, bold := false, color := some (0, 0, 0) }]] }

/-- A bullet item of a content slide's bullet list: either a plain string
line, or a Python list/tuple whose head is a heading and whose tail are
sub-lines. -/
inductive BulletItem where
  | line (text : String)
  | group (items : List String)
  deriving Repr, DecidableEq

/-- The paragraph written by the inner `add_line(text, level)` helper of
`add_bullets`: 22 pt, no bold, no explicit color. -/
def mkBulletPara (text : String) (level : Nat) : Para :=
  { text := text, level := level, size := some 22, bold := false, color := none }

/-- One `add_line(text, level)` step of `add_bullets`: on the first call the
cleared frame's paragraph 0 is overwritten, afterwards `add_paragraph()`
appends.  State is (first flag, paragraphs so far). -/
def add_line (st : Bool × List Para) (text : String) (level : Nat) : Bool × List Para :=
  match st with
  | (true, ps) => (false, ps.set 0 (mkBulletPara text level))
  | (false, ps) => (false, ps ++ [mkBulletPara text level])

/-- The `for item in bullets` loop body of `add_bullets`: a string renders at
level 0; a non-empty list/tuple renders its head at level 0 and every later
element at level 1; an empty list/tuple matches no branch and is skipped. -/
def bulletStep (st : Bool × List Para) (item : BulletItem) : Bool × List Para :=
  match item with
  | BulletItem.line t => add_line st t 0
  | BulletItem.group [] => st
  | BulletItem.group (h :: tl) => tl.foldl (fun s sub => add_line s sub 1) (add_line st h 0)

/-- The paragraphs the bullet text frame holds after `add_bullets` runs its
loop over `bullets`, starting from the cleared frame (one empty paragraph,
first flag set). -/
def bulletParas (bullets : List BulletItem) : List Para :=
  (bullets.foldl bulletStep (true, [defaultPara])).2

/-- `add_bullets(slide, bullets)`: a text box at (0.7in, 2.2in, 10in, 5.1in)
holding the rendered bullet paragraphs. -/
def add_bullets (slide : Slide) (bullets : List BulletItem) : Slide :=
  { slide with shapes := slide.shapes ++ [Shape.textbox in07 in22 in10 in51 (bulletParas bullets)] }

/-- `add_notes(slide, notes_text)`: returns unchanged when the text is empty
(`if not notes_text: return`); otherwise creates/fetches the notes slide,
clears its text frame and sets paragraph 0's text. -/
def add_notes (slide : Slide) (notes_text : String) : Slide :=
  if notes_text = "" then slide
  else { slide with notes := some [{ defaultPara with text := notes_text }] }

/-- The content slide built by `add_content_slide` before it is appended to
the presentation: background image, title box, bullet box, optional notes. -/
def contentSlide (prs : Prs) (template_image title : String) (bullets : List BulletItem)
    (notes : String) : Slide :=
  add_notes (add_bullets (add_title (add_bg_image blankSlide template_image prs) title) bullets) notes

/-- `add_content_slide(prs, template_image, title, bullets, notes)`: appends
one content slide to the document. -/
def add_content_slide (prs : Prs) (template_image title : String) (bullets : List BulletItem)
    (notes : String) : Prs :=
  { prs with slides := prs.slides ++ [contentSlide prs template_image title bullets notes] }

/-- The subtitle lines assembled by `add_title_slide`: the subtitle, then the
presenter if truthy (non-empty), then the org if truthy, then the date. -/
def subtitle_lines (subtitle presenter org when : String) : List String :=
  ([subtitle] ++ (if presenter = "" then [] else [presenter])
    ++ (if org = "" then [] else [org])) ++ [when]

/-- The title slide built by `add_title_slide` before it is appended:
background image, title box, and a subtitle box holding the joined lines. -/
def titleSlide (prs : Prs) (template_image title subtitle presenter org when : String) : Slide :=
  add_subtitle (add_title (add_bg_image blankSlide template_image prs) title)
    (String.intercalate "\n" (subtitle_lines subtitle presenter org when))

/-- `add_title_slide(prs, template_image, title, subtitle, presenter, org,
when)`: appends the title slide to the document. -/
def add_title_slide (prs : Prs) (template_image title subtitle presenter org when : String) : Prs :=
  { prs with slides := prs.slides ++ [titleSlide prs template_image title subtitle presenter org when] }

/-- Shorthand for a plain bullet line. -/
def bl (t : String) : BulletItem := BulletItem.line t

/-- Shorthand for a heading-plus-sublines bullet group. -/
def bg (ts : List String) : BulletItem := BulletItem.group ts

/-- The fixed `slides` list of `build_prs`: seventeen (title, bullets,
notes) content slide specifications, transcribed from the source. -/
def slidesSpec : List (String × List BulletItem × String) :=
  [ ("Agenda",
      [bl "What is Playwright?",
       bl "What is MCP (Model Context Protocol)?",
       bl "Why Playwright + MCP",
       bl "Architecture",
       bl "Components",
       bl "Uses",
       bl "Install steps",
       bl "Execute steps (demo flow)",
       bl "References"],
      "Set expectations and timing."),
    ("What is Playwright?",
      [bl "Open-source end-to-end testing framework by Microsoft",
       bl "Automates Chromium, Firefox, WebKit across Windows, macOS, Linux, CI",
       bl "Fast, reliable, headless or headed modes",
       bl "Rich tooling: Codegen, Trace Viewer, HTML reports",
       bl "Great for E2E, smoke, visual, and API-assisted flows"],
      "Emphasize cross-browser parity and dev tooling."),
    ("What is MCP (Model Context Protocol)?",
      [bl "Protocol to safely connect LLMs to external tools and data",
       bl "Standardizes capabilities (tools/procedures, resources, prompts)",
       bl "Decouples LLMs from vendor-specific plugins",
       bl "Enables auditable, permissioned tool usage"],
      "MCP as a clean contract between LLMs and tools."),
    ("Why Combine Playwright + MCP?",
      [bl "Natural-language control of browsers via standardized tools",
       bl "Automate tasks and verifications with LLM guidance",
       bl "Reproduce flaky flows and triage with traces/logs",
       bl "Fits CI/CD and guardrails; observability via Playwright artifacts"],
      "Bridge developer and AI operator workflows."),
    ("Architecture",
      [bl "LLM Client ↔ MCP Client/Transport ↔ Playwright MCP Server ↔ Playwright Core ↔ Target Web App",
       bl "Optional: Secrets store, config, logging/telemetry, sandboxing"],
      "Highlight trust boundaries and policy points."),
    ("Core Components",
      [bg ["MCP Client:", "Connects LLM to MCP servers", "Presents tools/resources to the model"],
       bg ["Playwright MCP Server:", "navigate, click, fill, waitFor, screenshot, extract, runTest",
           "Config: browser type, headless, storage state, timeouts"],
       bg ["Playwright Runtime:", "Browsers, isolation contexts, tracing, reports"]],
      "Clarify responsibilities and config."),
    ("Common Uses",
      [bl "E2E and smoke runs via natural-language prompts",
       bl "Repro/triage regressions with scripts and traces",
       bl "Data extraction and validation from internal apps",
       bl "Visual verifications and review screenshots",
       bl "CI bots that verify \x27happy path\x27 before merge"],
      "Map to concrete workflows."),
    ("Prerequisites",
      [bl "Node.js 18+ and Git",
       bl "macOS/Windows/Linux with browser deps",
       bl "Optional: VS Code and npm/yarn/pnpm",
       bl "MCP-capable client (e.g., Claude Desktop) for LLM control"],
      "Note proxies/sandbox considerations."),
    ("Install: Playwright",
      [bl "npm init -y",
       bl "npm i -D @playwright/test",
       bl "npx playwright install --with-deps",
       bl "Optional: npx playwright test --ui; npx playwright codegen https://example.com"],
      "Verify browsers downloaded; run a sample test."),
    ("Install: Playwright MCP Server (example)",
      [bl "git clone <playwright-mcp-server-repo> && cd <repo>",
       bl "npm i && npm run build",
       bl "Configure .env: BROWSER, HEADLESS, TIMEOUTS, STORAGE_STATE",
       bl "npm start (verify local run)"],
      "Replace with your team’s server repo."),
    ("Configure MCP Client",
      [bl "Add server in client (e.g., Claude Desktop Tools/Servers)",
       bl "Command: node dist/index.js; Working dir: server root",
       bl "Env: HEADLESS=true, BROWSER=chromium, etc.",
       bl "Validate tools: playwright.navigate, playwright.click, playwright.screenshot"],
      "Dry run to list available procedures."),
    ("Execute: LLM-Driven Demo",
      [bl "Start server: npm start",
       bl "Prompt: Open URL → Click Sign In → Fill creds → Submit",
       bl "Screenshot and confirm dashboard visible",
       bl "Collect artifacts: screenshots, traces"],
      "Keep creds in secrets; show trace viewer."),
    ("Execute: Playwright Test CLI (non-LLM)",
      [bl "npx playwright test",
       bl "npx playwright show-report",
       bl "npx playwright show-trace trace.zip"],
      "Show parity with scripted flows."),
    ("CI/CD Integration (Example)",
      [bl "Use official Playwright GitHub Action",
       bl "Cache browsers for speed",
       bl "Upload HTML report and trace artifacts"],
      "Mention parallelization and flaky retry policy."),
    ("Security & Governance",
      [bl "Least privilege; domain allowlists",
       bl "Redact secrets/PII; vault-backed env vars",
       bl "Logging/telemetry with sensitive-data filtering",
       bl "Sandbox/brokered access for production targets"],
      "Cover infosec expectations."),
    ("Troubleshooting",
      [bl "Install browsers: npx playwright install",
       bl "CI sandbox/headless issues: disable sandbox or run headed locally",
       bl "Selectors flaky: prefer data-testid and proper waits",
       bl "MCP connection errors: check path, permissions, env vars",
       bl "Trace empty: enable tracing around actions"],
      "Mini-FAQ for demos."),
    ("References",
      [bl "Playwright Docs: https://playwright.dev",
       bl "Test Intro: https://playwright.dev/docs/test-intro",
       bl "CLI: https://playwright.dev/docs/test-cli",
       bl "CI Guides: https://playwright.dev/docs/ci",
       bl "Trace Viewer: https://playwright.dev/docs/trace-viewer",
       bl "MCP Spec: https://modelcontextprotocol.io",
       bl "Claude + MCP Getting Started: https://docs.anthropic.com/claude/docs/mcp-get-started"],
      "Add your internal repo link.")]

/-- The parsed command-line arguments of `main` (all string-valued). -/
structure Args where
  template_image : String
  out : String
  title : String
  presenter : String
  org : String
  date : String
  deriving Repr, DecidableEq

/-- The argparse value of `--date`: the supplied string when present, else
the default `"07/11/2025"`. -/
def argDate (cli : Option String) : String := cli.getD "07/11/2025"

/-- `args.date or str(date.today())` in `build_prs`: the parsed date when it
is truthy (non-empty), else today's date rendered as a string. -/
def usedDate (d today : String) : String := if d = "" then today else d

/-- The fixed subtitle line of the title slide. -/
def subtitleConst : String :=
  "Definition, Architecture, Components, Uses, Installation, Execution, References"

/-- `build_prs(args)`: a fresh presentation, a title slide, then one content
slide per entry of `slidesSpec`.  `today` is the ambient current date that
`str(date.today())` would render. -/
def build_prs (a : Args) (today : String) : Prs :=
  let prs := newPrs
  let prs := add_title_slide prs a.template_image a.title subtitleConst
    a.presenter a.org (usedDate a.date today)
  slidesSpec.foldl (fun prs s => add_content_slide prs a.template_image s.1 s.2.1 s.2.2) prs

/-- Number of slides of the built document. -/
def slideCount (p : Prs) : Nat := p.slides.length

/-- The text of a shape when it is a text box at the title geometry
(top 0.6 in), i.e. a box created by `add_title`. -/
def titleTextOf (sh : Shape) : Option String :=
  match sh with
  | Shape.textbox _ top _ _ ps => if top = in06 then (ps.map Para.text).head? else none
  | _ => none

/-- The text of a shape when it is a text box at the subtitle geometry
(top 1.6 in), i.e. a box created by `add_subtitle`. -/
def subtitleTextOf (sh : Shape) : Option String :=
  match sh with
  | Shape.textbox _ top _ _ ps => if top = in16 then (ps.map Para.text).head? else none
  | _ => none

/-- The slide's title text: the first title-geometry text box's text. -/
def slideTitle (s : Slide) : Option String := (s.shapes.filterMap titleTextOf).head?

/-- The titles of all slides, in document order. -/
def slideTitles (p : Prs) : List (Option String) := p.slides.map slideTitle

/-- The subtitle text of the document's first slide (the title slide). -/
def titleSlideSubtitle (p : Prs) : Option String :=
  p.slides.head?.bind (fun s => (s.shapes.filterMap subtitleTextOf).head?)

/-- Spec-side description of the bullet outline: each plain line at depth 0;
each heading-plus-sublines group as its heading at depth 0 followed by every
subline at depth 1, in input order. -/
def bulletOutlineSpec : List BulletItem → List (String × Nat)
  | [] => []
  | BulletItem.line t :: rest => (t, 0) :: bulletOutlineSpec rest
  | BulletItem.group [] :: rest => bulletOutlineSpec rest
  | BulletItem.group (h :: tl) :: rest =>
      ((h, 0) :: tl.map (fun sub => (sub, 1))) ++ bulletOutlineSpec rest

/-- Spec-side count: total number of top-level items plus sub-items of a
bullet specification (a group contributes its heading plus its sublines). -/
def bulletSpecCount (bullets : List BulletItem) : Nat :=
  bullets.foldl (fun n item =>
    match item with
    | BulletItem.line _ => n + 1
    | BulletItem.group g => n + g.length) 0

/-- `true` exactly when the shape is a picture. -/
def isPic (sh : Shape) : Bool :=
  match sh with
  | Shape.pic _ _ _ _ _ => true
  | _ => false

/-- `true` exactly when the shape is a text box at the title geometry. -/
def isTitleBox (sh : Shape) : Bool :=
  match sh with
  | Shape.textbox _ top _ _ _ => top == in06
  | _ => false

/-- `true` exactly when the shape is a text box at the subtitle or bullet
geometry (a body box). -/
def isBodyBox (sh : Shape) : Bool :=
  match sh with
  | Shape.textbox _ top _ _ _ => top == in16 || top == in22
  | _ => false

/-- Number of notes blocks of a slide (0 or 1 by construction). -/
def notesCount (s : Slide) : Nat :=
  match s.notes with
  | none => 0
  | some _ => 1

/-- The slide invariant of the spec: exactly one background picture, placed
at the origin and sized to the full `w` by `h` canvas, at most one title
box, at most one body box, at most one notes block. -/
def slideInv (w h : Nat) (s : Slide) : Bool :=
  (match s.shapes.filter isPic with
   | [Shape.pic _ l t pw ph] => l == 0 && t == 0 && pw == w && ph == h
   | _ => false)
  && (s.shapes.countP isTitleBox ≤ 1)
  && (s.shapes.countP isBodyBox ≤ 1)
  && (notesCount s ≤ 1)

/-- The one I/O failure class of the script: the template image cannot be
read by the rendering layer's `add_picture`. -/
inductive IOErr where
  | unreadableImage
  deriving Repr, DecidableEq

/-- `add_bg_image` with the library's I/O behaviour made explicit: when the
image path is not readable, `add_picture` raises and the error propagates. -/
def add_bg_imageE (readable : Bool) (slide : Slide) (image_path : String) (prs : Prs) :
    Except IOErr Slide :=
  if readable then Except.ok (add_bg_image slide image_path prs)
  else Except.error IOErr.unreadableImage

/-- `add_content_slide` in the fallible model: the background image is added
first, so an unreadable image aborts before any later step. -/
def add_content_slideE (readable : Bool) (prs : Prs) (template_image title : String)
    (bullets : List BulletItem) (notes : String) : Except IOErr Prs := do
  let s ← add_bg_imageE readable blankSlide template_image prs
  let s := add_notes (add_bullets (add_title s title) bullets) notes
  Except.ok { prs with slides := prs.slides ++ [s] }

/-- `add_title_slide` in the fallible model. -/
def add_title_slideE (readable : Bool) (prs : Prs)
    (template_image title subtitle presenter org when : String) : Except IOErr Prs := do
  let s ← add_bg_imageE readable blankSlide template_image prs
  let s := add_subtitle (add_title s title)
    (String.intercalate "\n" (subtitle_lines subtitle presenter org when))
  Except.ok { prs with slides := prs.slides ++ [s] }

/-- `build_prs` in the fallible model: title slide first, then the content
slides in order; the first I/O failure propagates. -/
def build_prsE (readable : Bool) (a : Args) (today : String) : Except IOErr Prs := do
  let prs := newPrs
  let prs ← add_title_slideE readable prs a.template_image a.title subtitleConst
    a.presenter a.org (usedDate a.date today)
  slidesSpec.foldlM
    (fun prs s => add_content_slideE readable prs a.template_image s.1 s.2.1 s.2.2) prs

/-- `main` after argument parsing: build the document, then save it to
`args.out`, then print the confirmation line.  The success value records the
saved document, the path written, and the printed message; an error means the
build failed before the save and the print. -/
def mainE (readable : Bool) (a : Args) (today : String) :
    Except IOErr (Prs × String × String) := do
  let prs ← build_prsE readable a today
  Except.ok (prs, a.out, "Wrote " ++ a.out)

/-- The paragraphs of a shape when it is the bullet box (top 2.2 in). -/
def bulletBoxParasOf (sh : Shape) : Option (List Para) :=
  match sh with
  | Shape.textbox _ top _ _ ps => if top = in22 then some ps else none
  | _ => none

/-- The paragraph list of a slide's bullet outline box ([] when absent). -/
def slideBulletParas (s : Slide) : List Para :=
  ((s.shapes.filterMap bulletBoxParasOf).head?).getD []

lemma foldl_add_line_one (subs : List String) (ps : List Para) :
    subs.foldl (fun s sub => add_line s sub 1) (false, ps)
      = (false, ps ++ subs.map (fun sub => mkBulletPara sub 1)) := by
  induction subs generalizing ps with
  | nil => simp
  | cons t ts ih =>
    have h1 : add_line (false, ps) t 1 = (false, ps ++ [mkBulletPara t 1]) := rfl
    rw [List.foldl_cons, h1, ih]
    simp

lemma foldl_bulletStep_false (items : List BulletItem) (ps : List Para) :
    items.foldl bulletStep (false, ps)
      = (false, ps ++ (bulletOutlineSpec items).map (fun q => mkBulletPara q.1 q.2)) := by
  induction items generalizing ps with
  | nil => simp [bulletOutlineSpec]
  | cons it its ih =>
    cases it with
    | line t =>
      have h1 : bulletStep (false, ps) (BulletItem.line t)
          = (false, ps ++ [mkBulletPara t 0]) := rfl
      rw [List.foldl_cons, h1, ih]
      simp [bulletOutlineSpec]
    | group g =>
      cases g with
      | nil =>
        have h1 : bulletStep (false, ps) (BulletItem.group []) = (false, ps) := rfl
        rw [List.foldl_cons, h1, ih]
        rfl
      | cons h tl =>
        have h1 : bulletStep (false, ps) (BulletItem.group (h :: tl))
            = tl.foldl (fun s sub => add_line s sub 1) (false, ps ++ [mkBulletPara h 0]) := rfl
        rw [List.foldl_cons, h1, foldl_add_line_one, ih]
        simp [bulletOutlineSpec]

lemma bulletParas_eq (items : List BulletItem) :
    bulletParas items
      = if bulletOutlineSpec items = [] then [defaultPara]
        else (bulletOutlineSpec items).map (fun q => mkBulletPara q.1 q.2) := by
  induction items with
  | nil => simp [bulletParas, bulletOutlineSpec]
  | cons it its ih =>
    cases it with
    | line t =>
      have h1 : bulletParas (BulletItem.line t :: its)
          = (its.foldl bulletStep (false, [mkBulletPara t 0])).2 := rfl
      rw [h1, foldl_bulletStep_false]
      simp [bulletOutlineSpec]
    | group g =>
      cases g with
      | nil =>
        have h1 : bulletParas (BulletItem.group [] :: its) = bulletParas its := rfl
        rw [h1, ih]
        rfl
      | cons h tl =>
        have h1 : bulletParas (BulletItem.group (h :: tl) :: its)
            = (its.foldl bulletStep
                (tl.foldl (fun s sub => add_line s sub 1) (false, [mkBulletPara h 0]))).2 := rfl
        rw [h1, foldl_add_line_one, foldl_bulletStep_false]
        simp [bulletOutlineSpec]

/-- C1: for every bullet content with at least one rendered line, the bullet
outline box renders exactly the spec outline: each plain line at depth 0,
each group's heading at depth 0 followed immediately by its sublines at
depth 1, preserving the input order of items and of sublines. -/
theorem add_bullets_renders_spec_outline (bullets : List BulletItem)
    (h : bulletOutlineSpec bullets ≠ []) :
    (bulletParas bullets).map (fun p => (p.text, p.level)) = bulletOutlineSpec bullets := by
  rw [bulletParas_eq, if_neg h, List.map_map]
  have h2 : ((fun p : Para => (p.text, p.level)) ∘ fun q : String × Nat => mkBulletPara q.1 q.2)
      = id := by
    funext q
    simp [mkBulletPara]
  rw [h2, List.map_id]

/-- Witness for C1 at a concrete bullet list with a plain line and a
heading-plus-sublines group. -/
theorem add_bullets_renders_spec_outline_witness :
    bulletOutlineSpec [BulletItem.line "a", BulletItem.group ["h", "s1", "s2"]] ≠ [] ∧
    (bulletParas [BulletItem.line "a", BulletItem.group ["h", "s1", "s2"]]).map
        (fun p => (p.text, p.level))
      = bulletOutlineSpec [BulletItem.line "a", BulletItem.group ["h", "s1", "s2"]] :=
  ⟨by decide, add_bullets_renders_spec_outline _ (by decide)⟩

/-- C2: for every content slide specification of the deck, the bullet
outline box of the slide built from it holds exactly as many paragraphs as
the specification has top-level items plus sub-items. -/
theorem bullet_box_para_count (img : String) :
    slidesSpec.all (fun spec =>
      (slideBulletParas (contentSlide newPrs img spec.1 spec.2.1 spec.2.2)).length
        == bulletSpecCount spec.2.1) = true := by
  rfl

lemma foldl_content_slides_length (a : Args) (l : List (String × List BulletItem × String))
    (prs : Prs) :
    ((l.foldl (fun prs s => add_content_slide prs a.template_image s.1 s.2.1 s.2.2)
        prs).slides).length = prs.slides.length + l.length := by
  induction l generalizing prs with
  | nil => simp
  | cons x xs ih =>
    rw [List.foldl_cons, ih]
    simp [add_content_slide]
    omega

/-- C3: every run of the builder produces exactly 1 + K slides, where K is
the length of the fixed content list, and K = 17. -/
theorem build_prs_slide_count (a : Args) (today : String) :
    slideCount (build_prs a today) = 1 + slidesSpec.length ∧ slidesSpec.length = 17 := by
  refine ⟨?_, rfl⟩
  unfold slideCount build_prs
  rw [foldl_content_slides_length]
  simp [add_title_slide, newPrs]

/-- C9: an empty group contributes zero paragraphs to the bullet outline
box: the box's paragraphs with the empty group present are exactly those
with it removed. -/
theorem empty_group_skipped (pre post : List BulletItem) :
    bulletParas (pre ++ BulletItem.group [] :: post) = bulletParas (pre ++ post) := by
  unfold bulletParas
  rw [List.foldl_append, List.foldl_append, List.foldl_cons]
  rfl

/-- C10: adding empty notes leaves the slide unchanged, and a freshly built
content slide has a notes block exactly when its notes text is non-empty. -/
theorem add_notes_empty_frame (s : Slide) (prs : Prs) (img ttl : String)
    (bullets : List BulletItem) (n : String) :
    add_notes s "" = s ∧ ((contentSlide prs img ttl bullets n).notes.isSome ↔ n ≠ "") := by
  refine ⟨by simp [add_notes], ?_⟩
  by_cases hn : n = "" <;>
    simp [contentSlide, add_notes, add_bullets, add_title, add_bg_image, blankSlide, hn]

/-- C8: with an unreadable template image, the run fails with the propagated
I/O error: nothing is saved and the confirmation line is never produced. -/
theorem unreadable_image_aborts (a : Args) (today : String) :
    mainE false a today = Except.error IOErr.unreadableImage := by
  rfl

/-- C4: the subtitle block's lines contain the presenter exactly when the
presenter string is non-empty, and the organization exactly when it is
non-empty (given that the fixed subtitle line and the date line are
non-empty, as they are in every build). -/
theorem subtitle_lines_presenter_org (sub pres org when : String)
    (h1 : sub ≠ "") (h2 : when ≠ "") :
    (pres ∈ subtitle_lines sub pres org when ↔ pres ≠ "") ∧
    (org ∈ subtitle_lines sub pres org when ↔ org ≠ "") := by
  by_cases hp : pres = "" <;> by_cases ho : org = "" <;>
    simp_all [subtitle_lines, eq_comm]

/-- Witness for C4 at concrete inputs: presenter "Jane Doe", empty org. -/
theorem subtitle_lines_presenter_org_witness :
    (("Jane Doe" : String) ∈
        subtitle_lines subtitleConst "Jane Doe" "" "01/01/2030" ↔ ("Jane Doe" : String) ≠ "") ∧
    (("" : String) ∈
        subtitle_lines subtitleConst "Jane Doe" "" "01/01/2030" ↔ ("" : String) ≠ "") :=
  subtitle_lines_presenter_org subtitleConst "Jane Doe" "" "01/01/2030"
    (by decide) (by decide)

/-- C5 counterexample: with the date argument omitted, the date used is the
hardcoded argparse default "07/11/2025", not the ambient current date
(here "2026-10-12"). -/
theorem omitted_date_not_today :
    usedDate (argDate none) "2026-10-12" ≠ "2026-10-12" := by
  decide

/-- C5 amended: when the date argument is omitted the date used is the fixed
default "07/11/2025"; the ambient current date is used exactly when the
parsed date string is empty (e.g. supplied as an empty string). -/
theorem omitted_date_uses_default (today : String) :
    usedDate (argDate none) today = "07/11/2025" ∧ usedDate "" today = today := by
  constructor
  · rw [show argDate none = "07/11/2025" from rfl]
    unfold usedDate
    rw [if_neg (by decide)]
  · rw [show usedDate "" today = if ("" : String) = "" then today else "" from rfl,
      if_pos rfl]

lemma contentSlide_inv (prs : Prs) (img ttl : String) (bullets : List BulletItem)
    (notes : String) :
    slideInv prs.slideWidth prs.slideHeight (contentSlide prs img ttl bullets notes) = true := by
  by_cases hn : notes = "" <;>
    simp [slideInv, contentSlide, add_notes, add_bullets, add_title, add_bg_image,
      blankSlide, isPic, isTitleBox, isBodyBox, notesCount, hn, in06, in16, in22]

lemma titleSlide_inv (prs : Prs) (img ttl sub pres org when : String) :
    slideInv prs.slideWidth prs.slideHeight (titleSlide prs img ttl sub pres org when) = true := by
  simp [slideInv, titleSlide, add_subtitle, add_title, add_bg_image, blankSlide,
    isPic, isTitleBox, isBodyBox, notesCount, in06, in16, in22]

lemma add_content_slide_dims (prs : Prs) (img ttl : String) (bullets : List BulletItem)
    (notes : String) :
    (add_content_slide prs img ttl bullets notes).slideWidth = prs.slideWidth ∧
    (add_content_slide prs img ttl bullets notes).slideHeight = prs.slideHeight :=
  ⟨rfl, rfl⟩

lemma foldl_content_inv (a : Args) (l : List (String × List BulletItem × String)) (prs : Prs)
    (hw : prs.slideWidth = defaultSlideWidth) (hh : prs.slideHeight = defaultSlideHeight)
    (hall : prs.slides.all (slideInv defaultSlideWidth defaultSlideHeight) = true) :
    ((l.foldl (fun prs s => add_content_slide prs a.template_image s.1 s.2.1 s.2.2)
        prs).slides).all (slideInv defaultSlideWidth defaultSlideHeight) = true := by
  induction l generalizing prs with
  | nil => exact hall
  | cons x xs ih =>
    rw [List.foldl_cons]
    refine ih _ hw hh ?_
    have hs := contentSlide_inv prs a.template_image x.1 x.2.1 x.2.2
    rw [hw, hh] at hs
    simp [add_content_slide, hall, hs]

lemma foldl_content_dims (a : Args) (l : List (String × List BulletItem × String)) (prs : Prs) :
    ((l.foldl (fun prs s => add_content_slide prs a.template_image s.1 s.2.1 s.2.2)
        prs).slideWidth) = prs.slideWidth ∧
    ((l.foldl (fun prs s => add_content_slide prs a.template_image s.1 s.2.1 s.2.2)
        prs).slideHeight) = prs.slideHeight := by
  induction l generalizing prs with
  | nil => exact ⟨rfl, rfl⟩
  | cons x xs ih => rw [List.foldl_cons]; exact ih _

/-- C6: every slide of the built document satisfies the slide invariant
(exactly one background picture at the origin filling the canvas, at most
one title box, at most one body box, at most one notes block), and both
slide-building operations produce invariant-satisfying slides for any
inputs. -/
theorem slides_satisfy_invariant (a : Args) (today : String) (prs : Prs)
    (img ttl sub pres org when : String) (bullets : List BulletItem) (notes : String) :
    ((build_prs a today).slides).all
        (slideInv (build_prs a today).slideWidth (build_prs a today).slideHeight) = true ∧
    slideInv prs.slideWidth prs.slideHeight (contentSlide prs img ttl bullets notes) = true ∧
    slideInv prs.slideWidth prs.slideHeight (titleSlide prs img ttl sub pres org when) = true := by
  refine ⟨?_, contentSlide_inv prs img ttl bullets notes,
    titleSlide_inv prs img ttl sub pres org when⟩
  have hd := foldl_content_dims a slidesSpec
    (add_title_slide newPrs a.template_image a.title subtitleConst a.presenter a.org
      (usedDate a.date today))
  unfold build_prs
  rw [hd.1, hd.2]
  refine foldl_content_inv a slidesSpec _ rfl rfl ?_
  have ht := titleSlide_inv newPrs a.template_image a.title subtitleConst a.presenter a.org
    (usedDate a.date today)
  simp [add_title_slide, newPrs] at ht ⊢
  exact ht

lemma usedDate_of_ne (d t : String) (h : d ≠ "") : usedDate d t = d := by
  simp [usedDate, h]

/-- C7: with an explicitly supplied (non-empty) date string, the built
document does not depend on the ambient current date: slide count, the
titles in order, and the title slide's subtitle are identical across runs. -/
theorem build_deterministic (a : Args) (t1 t2 : String) (h : a.date ≠ "") :
    slideCount (build_prs a t1) = slideCount (build_prs a t2) ∧
    slideTitles (build_prs a t1) = slideTitles (build_prs a t2) ∧
    titleSlideSubtitle (build_prs a t1) = titleSlideSubtitle (build_prs a t2) := by
  have hb : build_prs a t1 = build_prs a t2 := by
    unfold build_prs
    rw [usedDate_of_ne a.date t1 h, usedDate_of_ne a.date t2 h]
  rw [hb]
  exact ⟨rfl, rfl, rfl⟩

/-- Witness for C7 at concrete inputs run at two different ambient dates. -/
theorem build_deterministic_witness :
    slideCount (build_prs ⟨"t.png", "out.pptx", "Playwright MCP Demo", "Jane Doe", "",
        "01/01/2030"⟩ "2026-10-12")
      = slideCount (build_prs ⟨"t.png", "out.pptx", "Playwright MCP Demo", "Jane Doe", "",
        "01/01/2030"⟩ "2027-01-01") ∧
    slideTitles (build_prs ⟨"t.png", "out.pptx", "Playwright MCP Demo", "Jane Doe", "",
        "01/01/2030"⟩ "2026-10-12")
      = slideTitles (build_prs ⟨"t.png", "out.pptx", "Playwright MCP Demo", "Jane Doe", "",
        "01/01/2030"⟩ "2027-01-01") ∧
    titleSlideSubtitle (build_prs ⟨"t.png", "out.pptx", "Playwright MCP Demo", "Jane Doe", "",
        "01/01/2030"⟩ "2026-10-12")
      = titleSlideSubtitle (build_prs ⟨"t.png", "out.pptx", "Playwright MCP Demo", "Jane Doe", "",
        "01/01/2030"⟩ "2027-01-01") :=
  build_deterministic _ "2026-10-12" "2027-01-01" (by decide)

end Deck
